import Mathlib

/-!
Shallow embedding of `weather_updates.py`, a single-shot batch script that
fetches a daily weather forecast per location from an HTTP API, builds a
textual report, and e-mails it through an SMTP relay.

Modelling conventions:
* JSON numbers are embedded as `Rat` (the script performs no arithmetic on
  them beyond a comparison with `0`); numeric rendering inside the report is
  abstracted by `ratStr`.
* The network is an oracle `http : Rat → Rat → HttpResult` giving, per
  `(latitude, longitude)`, either a transport/non-2xx failure (the
  `requests.exceptions.RequestException` path) or a parsed JSON document.
* Python field accesses `data["k"]` and `xs[0]` are partial: absence raises
  `KeyError`/`IndexError`, which the script does NOT catch inside
  `get_weather` (its `except` clause only covers `RequestException`), so the
  embedding threads an `Except PyErr` error through `get_weather` and
  `build_weather_report`.
* The SMTP relay is an oracle `Relay` describing which of the three
  operations (connect, login, sendmail) raises which exception;
  `send_email` returns the console line it prints together with the trace of
  relay operations it performed, and is a total function (nothing escapes
  past it, mirroring its catch-all `except Exception`).
* The process environment is a map `String → Option String`;
  `startup_check` embeds the module-level `if not sender_email or not
  password: raise ValueError(...)` guard, using Python string truthiness
  (both a missing variable and an empty string are falsy).
-/

namespace WeatherUpdates

/-- `EMAIL_GREETING` constant from the script. -/
def EMAIL_GREETING : String := "Good morning!\n\nHere is your daily weather forecast:\n\n"

/-- `EMAIL_SUBJECT` constant from the script. -/
def EMAIL_SUBJECT : String := "Your Daily Weather Forecast"

/-- `SMTP_PORT` constant from the script. -/
def SMTP_PORT : Nat := 465

/-- Static recipient list from the script. -/
def recipients : List String := ["timhockswender@gmail.com", "chrishockswender@gmail.com"]

/-- The `WMO_CODES` dictionary: integer weather code to description. -/
def WMO_CODES (code : Int) : Option String :=
  match code with
  | 0 => some "Clear sky"
  | 1 => some "Mainly clear"
  | 2 => some "Partly cloudy"
  | 3 => some "Overcast"
  | 45 => some "Fog"
  | 48 => some "Depositing rime fog"
  | 51 => some "Light drizzle"
  | 53 => some "Moderate drizzle"
  | 55 => some "Dense drizzle"
  | 56 => some "Light freezing drizzle"
  | 57 => some "Dense freezing drizzle"
  | 61 => some "Slight rain"
  | 63 => some "Moderate rain"
  | 65 => some "Heavy rain"
  | 66 => some "Light freezing rain"
  | 67 => some "Heavy freezing rain"
  | 71 => some "Slight snow fall"
  | 73 => some "Moderate snow fall"
  | 75 => some "Heavy snow fall"
  | 77 => some "Snow grains"
  | 80 => some "Slight rain showers"
  | 81 => some "Moderate rain showers"
  | 82 => some "Violent rain showers"
  | 85 => some "Slight snow showers"
  | 86 => some "Heavy snow showers"
  | 95 => some "Thunderstorm"
  | 96 => some "Thunderstorm with slight hail"
  | 99 => some "Thunderstorm with heavy hail"
  | _ => none

/-- `get_weather_description`: `WMO_CODES.get(wmo_code, "Unknown weather code")`. -/
def get_weather_description (wmo_code : Int) : String :=
  (WMO_CODES wmo_code).getD "Unknown weather code"

/-- A latitude/longitude pair, as stored in the `locations` dictionary. -/
structure Coords where
  latitude : Rat
  longitude : Rat
  deriving DecidableEq

/-- The static `locations` dictionary (insertion order preserved). -/
def locations : List (String × Coords) :=
  [("Naples, FL", ⟨26.1420, -81.7948⟩), ("Davidson, NC", ⟨35.5024, -80.8437⟩)]

/-- The `current_weather` JSON object (only the field the script reads). -/
structure CurrentWeatherJson where
  temperature : Option Rat
  deriving DecidableEq

/-- The `daily` JSON object (only the arrays the script reads); each field is
`none` when the key is absent from the response. -/
structure DailyJson where
  temperature_2m_max : Option (List Rat)
  temperature_2m_min : Option (List Rat)
  weathercode : Option (List Int)
  precipitation_sum : Option (List Rat)
  precipitation_probability_max : Option (List Rat)
  deriving DecidableEq

/-- The parsed JSON body of a successful API response. -/
structure ApiJson where
  current_weather : Option CurrentWeatherJson
  daily : Option DailyJson
  deriving DecidableEq

/-- Outcome of `requests.get` + `raise_for_status` + `json()`: either any
`RequestException` (transport error or non-2xx status) or a parsed document. -/
inductive HttpResult where
  | failure
  | success (data : ApiJson)
  deriving DecidableEq

/-- Python exceptions that `get_weather`'s field extraction can raise and
does not catch. -/
inductive PyErr where
  | keyError
  | indexError
  deriving DecidableEq

/-- `d["k"]` on a JSON object: `KeyError` when the key is absent. -/
def dictGet {α : Type} : Option α → Except PyErr α
  | none => Except.error PyErr.keyError
  | some v => Except.ok v

/-- `xs[0]` on a JSON array: `IndexError` when the array is empty. -/
def index0 {α : Type} : List α → Except PyErr α
  | [] => Except.error PyErr.indexError
  | x :: _ => Except.ok x

/-- The `weather_data` dictionary built by `get_weather` on success. -/
structure WeatherData where
  current_temp : Rat
  max_temp : Rat
  min_temp : Rat
  weather_code : Int
  precipitation_sum : Rat
  precipitation_probability_max : Rat
  deriving DecidableEq

/-- The field extraction inside `get_weather`'s `try` block, in the source's
evaluation order.  A missing key or empty array raises (is not caught). -/
def extract_weather_data (data : ApiJson) : Except PyErr WeatherData := do
  let cw ← dictGet data.current_weather
  let current_temp ← dictGet cw.temperature
  let daily ← dictGet data.daily
  let max_temp ← index0 (← dictGet daily.temperature_2m_max)
  let min_temp ← index0 (← dictGet daily.temperature_2m_min)
  let weather_code ← index0 (← dictGet daily.weathercode)
  let precipitation_sum ← index0 (← dictGet daily.precipitation_sum)
  let precipitation_probability_max ← index0 (← dictGet daily.precipitation_probability_max)
  return ⟨current_temp, max_temp, min_temp, weather_code, precipitation_sum,
    precipitation_probability_max⟩

/-- `get_weather(lat, lon)`: on any `RequestException` it prints and returns
`None` (`Except.ok none`); on success it extracts the fields, and an
extraction error propagates uncaught (`Except.error`). -/
def get_weather (http : Rat → Rat → HttpResult) (lat lon : Rat) :
    Except PyErr (Option WeatherData) :=
  match http lat lon with
  | HttpResult.failure => Except.ok none
  | HttpResult.success data =>
    match extract_weather_data data with
    | Except.ok weather_data => Except.ok (some weather_data)
    | Except.error e => Except.error e

/-- Rendering of an embedded JSON number into the report text. -/
def ratStr (q : Rat) : String :=
  if q.den = 1 then toString q.num else toString q.num ++ "/" ++ toString q.den

/-- The line appended for a location whose fetch returned `None`. -/
def placeholderLine (location : String) : String :=
  location ++ ": Could not retrieve weather data.\n\n"

/-- The block appended for a location whose fetch succeeded, mirroring the
sequence of `report +=` statements (precipitation lines are appended only
when `precipitation_prob > 0`). -/
def locationBlock (location : String) (weather_data : WeatherData) : String :=
  location ++ ":\n"
    ++ "  Current Temp: " ++ ratStr weather_data.current_temp ++ "°F\n"
    ++ "  High: " ++ ratStr weather_data.max_temp ++ "°F | Low: "
    ++ ratStr weather_data.min_temp ++ "°F\n"
    ++ (if 0 < weather_data.precipitation_probability_max then
          "  Precipitation: " ++ get_weather_description weather_data.weather_code
            ++ " (" ++ ratStr weather_data.precipitation_probability_max ++ "% chance)\n"
            ++ "  Total Precipitation: " ++ ratStr weather_data.precipitation_sum ++ "mm\n"
        else "")
    ++ "\n"

/-- The `for location, coords in locations.items()` loop of
`build_weather_report`, with the growing `report` string as accumulator. -/
def buildLoop (http : Rat → Rat → HttpResult) :
    List (String × Coords) → String → Except PyErr String
  | [], report => Except.ok report
  | (location, coords) :: rest, report =>
    match get_weather http coords.latitude coords.longitude with
    | Except.error e => Except.error e
    | Except.ok (some weather_data) =>
      buildLoop http rest (report ++ locationBlock location weather_data)
    | Except.ok none => buildLoop http rest (report ++ placeholderLine location)

/-- `build_weather_report(locations)`: starts from `EMAIL_GREETING` and
appends one block (or placeholder line) per location. -/
def build_weather_report (http : Rat → Rat → HttpResult)
    (locs : List (String × Coords)) : Except PyErr String :=
  buildLoop http locs EMAIL_GREETING

/-- The text a single location contributes to a fully built report. -/
def locationEntry (http : Rat → Rat → HttpResult) (p : String × Coords) : String :=
  match get_weather http p.2.latitude p.2.longitude with
  | Except.ok (some weather_data) => locationBlock p.1 weather_data
  | _ => placeholderLine p.1

/-- The unconditional lines of a success block (name, current temp, high/low). -/
def tempLines (location : String) (weather_data : WeatherData) : String :=
  location ++ ":\n"
    ++ "  Current Temp: " ++ ratStr weather_data.current_temp ++ "°F\n"
    ++ "  High: " ++ ratStr weather_data.max_temp ++ "°F | Low: "
    ++ ratStr weather_data.min_temp ++ "°F\n"

/-- The two precipitation lines of a success block. -/
def precipLines (weather_data : WeatherData) : String :=
  "  Precipitation: " ++ get_weather_description weather_data.weather_code
    ++ " (" ++ ratStr weather_data.precipitation_probability_max ++ "% chance)\n"
    ++ "  Total Precipitation: " ++ ratStr weather_data.precipitation_sum ++ "mm\n"

/-- Exceptions the SMTP session can raise; the constructors mirror the
`except` clause hierarchy (`SMTPAuthenticationError` ⊂ `SMTPException` ⊂
`Exception`). -/
inductive SmtpExn where
  | authenticationError
  | smtpError (msg : String)
  | otherExn (msg : String)
  deriving DecidableEq

/-- Behaviour of the relay: which operation raises which exception
(`none` = the operation succeeds). -/
structure Relay where
  connectResult : Option SmtpExn
  loginResult : Option SmtpExn
  sendResult : Option SmtpExn
  deriving DecidableEq

/-- The relay operations `send_email` can perform, in order. -/
inductive SmtpOp where
  | connect
  | login
  | sendmail
  deriving DecidableEq, BEq

/-- The console line printed for each exception category, mirroring the
three `except` clauses of `send_email`. -/
def consoleFor : SmtpExn → String
  | SmtpExn.authenticationError =>
    "Error: SMTP authentication failed. Check your SENDER_EMAIL and EMAIL_PASSWORD."
  | SmtpExn.smtpError msg => "An SMTP error occurred: " ++ msg
  | SmtpExn.otherExn msg => "An unexpected error occurred: " ++ msg

/-- `send_email(email_body)`: connect, login, sendmail in order, stopping at
the first exception; returns the console line printed and the trace of relay
operations attempted.  Total: every exception is caught. -/
def send_email (email_body : String) (relay : Relay) : String × List SmtpOp :=
  match relay.connectResult with
  | some e => (consoleFor e, [SmtpOp.connect])
  | none =>
    match relay.loginResult with
    | some e => (consoleFor e, [SmtpOp.connect, SmtpOp.login])
    | none =>
      match relay.sendResult with
      | some e => (consoleFor e, [SmtpOp.connect, SmtpOp.login, SmtpOp.sendmail])
      | none => ("Email sent successfully!", [SmtpOp.connect, SmtpOp.login, SmtpOp.sendmail])

/-- The first exception the relay raises during `send_email`, if any. -/
def firstExn (relay : Relay) : Option SmtpExn :=
  match relay.connectResult with
  | some e => some e
  | none =>
    match relay.loginResult with
    | some e => some e
    | none => relay.sendResult

/-- The `ValueError` raised at module load when credentials are missing. -/
inductive StartupError where
  | valueError
  deriving DecidableEq

/-- Python truthiness of `os.environ.get(...)`: `None` and `""` are falsy. -/
def pyTruthy : Option String → Bool
  | none => false
  | some s => !s.isEmpty

/-- The module-level configuration guard: `if not sender_email or not
password: raise ValueError(...)`. -/
def startup_check (env : String → Option String) :
    Except StartupError (Option String × Option String) :=
  let sender_email := env "SENDER_EMAIL"
  let password := env "EMAIL_PASSWORD"
  if !pyTruthy sender_email || !pyTruthy password then Except.error StartupError.valueError
  else Except.ok (sender_email, password)

/-- The whole program: the startup guard runs first (at module load, before
any fetch or send); then the report is built and e-mailed. -/
def run_program (env : String → Option String) (http : Rat → Rat → HttpResult)
    (relay : Relay) : Except StartupError (Except PyErr (String × List SmtpOp)) :=
  match startup_check env with
  | Except.error e => Except.error e
  | Except.ok _ =>
    Except.ok
      (match build_weather_report http locations with
       | Except.error e => Except.error e
       | Except.ok weather_report => Except.ok (send_email weather_report relay))

/-- The sample JSON response of the spec's fixed-sample property, with the
remaining fields populated arbitrarily but well-formed. -/
def jsonSample : ApiJson :=
  ⟨some ⟨some 70⟩, some ⟨some [75], some [60], some [61], some [2], some [40]⟩⟩

/-- An oracle under which the location at latitude 1 succeeds with
`jsonSample` and every other location's fetch fails. -/
def httpOneFails : Rat → Rat → HttpResult := fun lat _ =>
  if lat = 1 then HttpResult.success jsonSample else HttpResult.failure

/-- `String.join` distributes over cons (helper). -/
theorem strJoin_cons (s : String) (l : List String) :
    String.join (s :: l) = s ++ String.join l := by
  simp [String.join_eq]
  rfl

/-- C2: for every integer code in the `WMO_CODES` mapping,
`get_weather_description` returns that code's description string, and for
every integer outside the mapping it returns the default
"Unknown weather code" string; the lookup is a pure function. -/
theorem get_weather_description_table :
    (∀ (code : Int) (desc : String),
        WMO_CODES code = some desc → get_weather_description code = desc) ∧
    (∀ code : Int,
        WMO_CODES code = none → get_weather_description code = "Unknown weather code") := by
  constructor
  · intro code desc h
    simp [get_weather_description, h]
  · intro code h
    simp [get_weather_description, h]

/-- Witness for C2 at codes 0 (mapped) and 4 (unmapped). -/
theorem get_weather_description_table_witness :
    get_weather_description 0 = "Clear sky" ∧
    get_weather_description 4 = "Unknown weather code" :=
  ⟨get_weather_description_table.1 0 "Clear sky" rfl,
   get_weather_description_table.2 4 rfl⟩

/-- C7: `build_weather_report` on an empty location mapping returns exactly
`EMAIL_GREETING`, for every state of the network. -/
theorem build_weather_report_empty :
    ∀ http : Rat → Rat → HttpResult,
      build_weather_report http [] = Except.ok EMAIL_GREETING :=
  fun _ => rfl

/-- C4: for the fixed sample JSON response with
`current_weather.temperature = 70`, `daily.temperature_2m_max[0] = 75` and
`daily.temperature_2m_min[0] = 60` (remaining fields arbitrary but present),
`get_weather` succeeds and the extracted (current, max, min) temperatures
are exactly the triple (70, 75, 60). -/
theorem get_weather_sample_triple :
    ∀ (wc : Int) (psum ppm : Rat),
      get_weather
          (fun _ _ => HttpResult.success
            ⟨some ⟨some 70⟩, some ⟨some [75], some [60], some [wc], some [psum], some [ppm]⟩⟩)
          0 0
        = Except.ok (some ⟨70, 75, 60, wc, psum, ppm⟩) :=
  fun _ _ _ => rfl

/-- C5 counterexample: an HTTP-successful response that omits
`daily.precipitation_sum` makes `get_weather` raise an uncaught `KeyError`
instead of returning a forecast. -/
theorem get_weather_missing_precip_counterexample :
    get_weather
        (fun _ _ => HttpResult.success
          ⟨some ⟨some 70⟩, some ⟨some [75], some [60], some [61], none, some [40]⟩⟩)
        0 0
      = Except.error PyErr.keyError :=
  rfl

/-- C5 amended: the precipitation fields are mandatory in `get_weather`'s
extraction: when the HTTP response succeeds but omits
`daily.precipitation_sum` or `daily.precipitation_probability_max` (with all
other required fields present), `get_weather` raises an uncaught `KeyError`
rather than returning a forecast. -/
theorem get_weather_requires_precip_fields :
    ∀ (ct maxT minT : Rat) (wc : Int) (ppm : List Rat) (ps : Rat) (rest : List Rat),
      get_weather
          (fun _ _ => HttpResult.success
            ⟨some ⟨some ct⟩, some ⟨some [maxT], some [minT], some [wc], none, some ppm⟩⟩)
          0 0
        = Except.error PyErr.keyError ∧
      get_weather
          (fun _ _ => HttpResult.success
            ⟨some ⟨some ct⟩, some ⟨some [maxT], some [minT], some [wc], some (ps :: rest), none⟩⟩)
          0 0
        = Except.error PyErr.keyError :=
  fun _ _ _ _ _ _ _ => ⟨rfl, rfl⟩

/-- C8: if either required environment variable (`SENDER_EMAIL`,
`EMAIL_PASSWORD`) is absent, the program fails with `ValueError` at startup,
for every network oracle and every relay — in particular before any fetch
or send can have an effect. -/
theorem missing_env_fatal :
    ∀ (env : String → Option String) (http : Rat → Rat → HttpResult) (relay : Relay),
      env "SENDER_EMAIL" = none ∨ env "EMAIL_PASSWORD" = none →
      run_program env http relay = Except.error StartupError.valueError := by
  intro env http relay h
  rcases h with h | h <;> simp [run_program, startup_check, pyTruthy, h]

/-- Witness for C8: an empty environment is fatal. -/
theorem missing_env_fatal_witness :
    run_program (fun _ => none) (fun _ _ => HttpResult.failure) ⟨none, none, none⟩
      = Except.error StartupError.valueError :=
  missing_env_fatal (fun _ => none) (fun _ _ => HttpResult.failure) ⟨none, none, none⟩
    (Or.inl rfl)

/-- C10: a present-but-empty value of either required environment variable
is treated exactly like absence: the startup guard (Python string
truthiness) raises `ValueError` and the program never proceeds. -/
theorem empty_env_fatal :
    ∀ (env : String → Option String) (http : Rat → Rat → HttpResult) (relay : Relay),
      env "SENDER_EMAIL" = some "" ∨ env "EMAIL_PASSWORD" = some "" →
      run_program env http relay = Except.error StartupError.valueError := by
  intro env http relay h
  rcases h with h | h <;>
    simp [run_program, startup_check, pyTruthy, h,
      show ("" : String).isEmpty = true from rfl]

/-- Witness for C10: empty-string credentials are fatal. -/
theorem empty_env_fatal_witness :
    run_program (fun _ => some "") (fun _ _ => HttpResult.failure) ⟨none, none, none⟩
      = Except.error StartupError.valueError :=
  empty_env_fatal (fun _ => some "") (fun _ _ => HttpResult.failure) ⟨none, none, none⟩
    (Or.inl rfl)

/-- C6: `send_email` is total (no relay failure escapes to the caller), the
console line it prints is exactly the category of the first exception the
relay raises (success line when none is raised), no relay operation is ever
attempted more than once (no retry), and in particular a relay that rejects
authentication at login yields the authentication-failure report. -/
theorem send_email_reports_category :
    ∀ (body : String) (relay : Relay),
      (send_email body relay).1 = (firstExn relay).elim "Email sent successfully!" consoleFor ∧
      List.count SmtpOp.login (send_email body relay).2 ≤ 1 ∧
      List.count SmtpOp.sendmail (send_email body relay).2 ≤ 1 ∧
      (∀ sr : Option SmtpExn,
        (send_email body
            { connectResult := none, loginResult := some SmtpExn.authenticationError,
              sendResult := sr }).1
          = "Error: SMTP authentication failed. Check your SENDER_EMAIL and EMAIL_PASSWORD.") := by
  intro body relay
  obtain ⟨c, l, s⟩ := relay
  refine ⟨?_, ?_, ?_, fun sr => rfl⟩ <;>
    cases c <;> cases l <;> cases s <;>
      simp [send_email, firstExn, consoleFor, List.count] <;> decide

/-- C3: for a two-location set where the first location's fetch succeeds
with data `w` and the second's fails, the built report is exactly the
greeting, one populated block for the first location, and one placeholder
line for the second. -/
theorem report_two_locations_one_failure
    (http : Rat → Rat → HttpResult) (name1 name2 : String) (c1 c2 : Coords)
    (w : WeatherData)
    (h1 : get_weather http c1.latitude c1.longitude = Except.ok (some w))
    (h2 : get_weather http c2.latitude c2.longitude = Except.ok none) :
    build_weather_report http [(name1, c1), (name2, c2)]
      = Except.ok (EMAIL_GREETING ++ locationBlock name1 w ++ placeholderLine name2) := by
  simp [build_weather_report, buildLoop, h1, h2]

/-- Witness for C3 at a concrete oracle where latitude 1 succeeds with the
sample data and latitude 3 fails. -/
theorem report_two_locations_one_failure_witness :
    build_weather_report httpOneFails [("A", ⟨1, 2⟩), ("B", ⟨3, 4⟩)]
      = Except.ok (EMAIL_GREETING ++ locationBlock "A" ⟨70, 75, 60, 61, 2, 40⟩
          ++ placeholderLine "B") :=
  report_two_locations_one_failure httpOneFails "A" "B" ⟨1, 2⟩ ⟨3, 4⟩
    ⟨70, 75, 60, 61, 2, 40⟩ rfl rfl

/-- Helper: when no per-location fetch raises an uncaught exception, the
report loop appends exactly one entry per location to its accumulator. -/
theorem buildLoop_append_entries (http : Rat → Rat → HttpResult)
    (locs : List (String × Coords)) :
    ∀ acc : String,
      (∀ p ∈ locs, (get_weather http p.2.latitude p.2.longitude).isOk = true) →
      buildLoop http locs acc
        = Except.ok (acc ++ String.join (locs.map (locationEntry http))) := by
  induction locs with
  | nil =>
    intro acc _
    simp [buildLoop, String.join, String.append_empty]
  | cons p rest ih =>
    intro acc h
    obtain ⟨location, coords⟩ := p
    have hhead := h (location, coords) (List.mem_cons_self _ _)
    have htail : ∀ q ∈ rest, (get_weather http q.2.latitude q.2.longitude).isOk = true :=
      fun q hq => h q (List.mem_cons_of_mem _ hq)
    cases hres : get_weather http coords.latitude coords.longitude with
    | error e =>
      rw [hres] at hhead
      simp [Except.isOk, Except.toBool] at hhead
    | ok v =>
      cases v with
      | none =>
        simp only [buildLoop, hres]
        rw [ih _ htail, List.map_cons, strJoin_cons]
        simp [locationEntry, hres, String.append_assoc]
      | some w =>
        simp only [buildLoop, hres]
        rw [ih _ htail, List.map_cons, strJoin_cons]
        simp [locationEntry, hres, String.append_assoc]

/-- C1: `get_weather` turns a transport/non-2xx failure into the marker
`None` rather than an exception, and — whenever no fetch raises an uncaught
exception — `build_weather_report` processes every location, appending the
placeholder line for each failed location and one entry per location, so no
fetch failure aborts the batch. -/
theorem fetch_failure_degrades_gracefully :
    (∀ (http : Rat → Rat → HttpResult) (lat lon : Rat),
        http lat lon = HttpResult.failure → get_weather http lat lon = Except.ok none) ∧
    (∀ (http : Rat → Rat → HttpResult) (locs : List (String × Coords)),
        (∀ p ∈ locs, (get_weather http p.2.latitude p.2.longitude).isOk = true) →
        build_weather_report http locs
            = Except.ok (EMAIL_GREETING ++ String.join (locs.map (locationEntry http))) ∧
          ∀ p ∈ locs, http p.2.latitude p.2.longitude = HttpResult.failure →
            locationEntry http p = placeholderLine p.1) := by
  constructor
  · intro http lat lon h
    simp [get_weather, h]
  · intro http locs h
    refine ⟨buildLoop_append_entries http locs EMAIL_GREETING h, ?_⟩
    intro p _ hfail
    simp [locationEntry, get_weather, hfail]

/-- Witness for C1: with every fetch failing, a two-location batch is fully
processed and the first location's entry is its placeholder line. -/
theorem fetch_failure_degrades_gracefully_witness :
    build_weather_report (fun _ _ => HttpResult.failure) [("A", ⟨1, 2⟩), ("B", ⟨3, 4⟩)]
        = Except.ok (EMAIL_GREETING
            ++ String.join ([("A", (⟨1, 2⟩ : Coords)), ("B", ⟨3, 4⟩)].map
                (locationEntry fun _ _ => HttpResult.failure)))
      ∧ locationEntry (fun _ _ => HttpResult.failure) ("A", ⟨1, 2⟩) = placeholderLine "A" :=
  ⟨(fetch_failure_degrades_gracefully.2 (fun _ _ => HttpResult.failure)
      [("A", ⟨1, 2⟩), ("B", ⟨3, 4⟩)] (fun _ _ => rfl)).1,
   (fetch_failure_degrades_gracefully.2 (fun _ _ => HttpResult.failure)
      [("A", ⟨1, 2⟩), ("B", ⟨3, 4⟩)] (fun _ _ => rfl)).2 ("A", ⟨1, 2⟩)
      (List.mem_cons_self _ _) rfl⟩

/-- Helper: the precipitation lines are never the empty string. -/
theorem precipLines_length (w : WeatherData) : 17 ≤ (precipLines w).length := by
  have h17 : ("  Precipitation: ").length = 17 := rfl
  simp only [precipLines, String.length_append]
  omega

/-- C9: a successful location's block carries the two precipitation lines
exactly when the fetched `precipitation_probability_max` is strictly
positive; otherwise the block is only the name, current-temperature and
high/low lines. -/
theorem precip_lines_iff_positive_probability :
    ∀ (location : String) (w : WeatherData),
      (locationBlock location w = tempLines location w ++ precipLines w ++ "\n"
          ↔ 0 < w.precipitation_probability_max) ∧
      (w.precipitation_probability_max ≤ 0 →
        locationBlock location w = tempLines location w ++ "\n") := by
  intro location w
  by_cases hp : 0 < w.precipitation_probability_max
  · refine ⟨⟨fun _ => hp, fun _ => ?_⟩, fun hle => absurd hp (not_lt.mpr hle)⟩
    simp [locationBlock, tempLines, precipLines, hp, String.append_assoc]
  · have hblock : locationBlock location w = tempLines location w ++ "\n" := by
      simp [locationBlock, tempLines, hp, String.append_assoc, String.append_empty]
    refine ⟨⟨fun heq => ?_, fun hpos => absurd hpos hp⟩, fun _ => hblock⟩
    exfalso
    rw [hblock] at heq
    have hlen := congrArg String.length heq
    have h1 : ("\n").length = 1 := rfl
    have h17 := precipLines_length w
    simp only [String.length_append] at hlen
    omega

/-- Witness for C9 at probability 40 (lines present) and 0 (lines absent). -/
theorem precip_lines_iff_positive_probability_witness :
    locationBlock "A" ⟨70, 75, 60, 61, 2, 40⟩
        = tempLines "A" ⟨70, 75, 60, 61, 2, 40⟩ ++ precipLines ⟨70, 75, 60, 61, 2, 40⟩ ++ "\n"
      ∧ locationBlock "B" ⟨70, 75, 60, 61, 2, 0⟩ = tempLines "B" ⟨70, 75, 60, 61, 2, 0⟩ ++ "\n" :=
  ⟨(precip_lines_iff_positive_probability "A" ⟨70, 75, 60, 61, 2, 40⟩).1.mpr (by decide),
   (precip_lines_iff_positive_probability "B" ⟨70, 75, 60, 61, 2, 0⟩).2 (by decide)⟩

end WeatherUpdates
